import Mathlib

/-!
Shallow embedding of src/src/browser-extension/popup/index.tsx
(openai-translator browser-extension popup).

The popup is a single React component plus five module-level functions:
saveGeminiApiKey, loadGeminiApiKey, recognizeImageWithGemini,
getImageFromClipboard, translateText, and the two handlers
handleScreenshotTranslate and handleSaveKey.  We embed the JavaScript
runtime values the code manipulates (an inductive JSVal with JS
truthiness and JS member access, where member access on null/undefined
throws a TypeError), the outcomes of the two fetch calls and the
clipboard read as explicit environment data, and the React state as an
explicit record threaded through the handlers.  Alerts, clipboard reads
and outbound network requests are recorded as an explicit event list.
-/

namespace Popup

/-- JavaScript runtime values, as far as the popup code observes them:
`undefined`, `null`, booleans, numbers (integers suffice for the shapes
involved), strings, arrays and plain objects. -/
inductive JSVal where
  | undef
  | null
  | bool (b : Bool)
  | num (n : Int)
  | str (s : String)
  | arr (elems : List JSVal)
  | obj (fields : List (String × JSVal))

namespace JSVal

/-- JS truthiness: `undefined`, `null`, `false`, `0` and `""` are falsy;
every array and object (even empty) is truthy. -/
def truthy : JSVal → Bool
  | undef => false
  | null => false
  | bool b => b
  | num n => n != 0
  | str s => s != ""
  | arr _ => true
  | obj _ => true

end JSVal

/-- A thrown JavaScript exception, as far as the pipeline observes it:
a rejected fetch, a response body that fails JSON parsing, or a
TypeError from a member access on null/undefined. -/
inductive JSErr where
  | fetchRejected
  | jsonRejected
  | typeError
  deriving DecidableEq

/-- JS member access `v.k`.  Accessing a property of `null` or
`undefined` throws a TypeError; on any other non-object value it yields
`undefined`; on an object it yields the field value, or `undefined` when
the field is absent.  (The popup never reads `length` or other built-in
properties, so those need no special case.) -/
def member (v : JSVal) (k : String) : Except JSErr JSVal :=
  match v with
  | .undef => .error .typeError
  | .null => .error .typeError
  | .obj fields => .ok ((fields.lookup k).getD .undef)
  | _ => .ok JSVal.undef

/-- JS index access `v[i]` for a numeric literal index.  On `null` or
`undefined` it throws; on an array it yields the element or `undefined`
past the end; on a string it yields the one-character string or
`undefined` past the end; on an object it looks the index up as a string
key; on other primitives it yields `undefined`. -/
def index (v : JSVal) (i : Nat) : Except JSErr JSVal :=
  match v with
  | .undef => .error .typeError
  | .null => .error .typeError
  | .arr elems => .ok ((elems.get? i).getD .undef)
  | .str s => .ok (((s.toList.get? i).map (fun c => JSVal.str (String.mk [c]))).getD .undef)
  | .obj fields => .ok ((fields.lookup (toString i)).getD .undef)
  | _ => .ok JSVal.undef

/-- Verification-side helper: is the value `null` or `undefined` (the
two receivers on which JS member access throws)? -/
def nullish : JSVal → Bool
  | .undef => true
  | .null => true
  | _ => false

/-- Verification-side helper: total member access, mapping the
TypeError case to `undefined`.  Used only to state characterizations of
the parsers; the embedded code itself uses the throwing `member`. -/
def memberD (v : JSVal) (k : String) : JSVal :=
  match member v k with
  | .ok w => w
  | .error _ => JSVal.undef

/-- Verification-side helper: total index access, mapping the TypeError
case to `undefined`. -/
def indexD (v : JSVal) (i : Nat) : JSVal :=
  match index v i with
  | .ok w => w
  | .error _ => JSVal.undef

/-- Sentinel returned by recognizeImageWithGemini when the API key is
empty (source line 15). -/
def noKeySentinel : String := "未填写 Gemini API Key"

/-- Sentinel returned by recognizeImageWithGemini when the response
shape check fails (source line 50). -/
def notRecognizedSentinel : String := "未能识别图片文字"

/-- Sentinel returned by translateText when the response shape check
fails (source line 91). -/
def translationFailedSentinel : String := "翻译失败"

/-- Source lines 40-50: the guarded descent
`if (data && data.candidates && data.candidates[0] &&
data.candidates[0].content && data.candidates[0].content.parts &&
data.candidates[0].content.parts[0].text) return
data.candidates[0].content.parts[0].text; return "未能识别图片文字"`.
The short-circuit `&&` chain is written as nested ifs, each falsy
conjunct reaching the sentinel return; an exception from evaluating a
conjunct propagates (`Except.bind`).  Note the source never checks
`parts[0]` itself, so when `parts` is truthy but `parts[0]` is
null/undefined the access `parts[0].text` throws a TypeError. -/
def parseGemini (data : JSVal) : Except JSErr JSVal :=
  if data.truthy then
    (member data "candidates").bind fun cands =>
      if cands.truthy then
        (index cands 0).bind fun c0 =>
          if c0.truthy then
            (member c0 "content").bind fun content =>
              if content.truthy then
                (member content "parts").bind fun parts =>
                  if parts.truthy then
                    (index parts 0).bind fun p0 =>
                      (member p0 "text").bind fun text =>
                        if text.truthy then .ok text
                        else .ok (.str notRecognizedSentinel)
                  else .ok (.str notRecognizedSentinel)
              else .ok (.str notRecognizedSentinel)
          else .ok (.str notRecognizedSentinel)
      else .ok (.str notRecognizedSentinel)
  else .ok (.str notRecognizedSentinel)

/-- Source lines 88-91: the guarded descent
`if (data && data.translateResult && data.translateResult[0] &&
data.translateResult[0][0]) return data.translateResult[0][0].tgt;
return "翻译失败"`.  The guard never checks `.tgt`, so a truthy first
entry without a `tgt` field makes the function return `undefined`
rather than the sentinel. -/
def parseTranslate (data : JSVal) : Except JSErr JSVal :=
  if data.truthy then
    (member data "translateResult").bind fun tr =>
      if tr.truthy then
        (index tr 0).bind fun t0 =>
          if t0.truthy then
            (index t0 0).bind fun t00 =>
              if t00.truthy then
                member t00 "tgt"
              else .ok (.str translationFailedSentinel)
          else .ok (.str translationFailedSentinel)
      else .ok (.str translationFailedSentinel)
  else .ok (.str translationFailedSentinel)

/-- Outcome of one `fetch` call as the popup observes it: the fetch
promise rejects (network/transport failure), `response.json()` rejects
(body not parsable as JSON), or a parsed JSON value is produced. -/
inductive FetchOutcome where
  | networkError
  | nonJson
  | json (v : JSVal)

/-- `await fetch(...)` then `await response.json()`: a rejected fetch or
an unparsable body surfaces as a thrown exception, otherwise the parsed
value is returned. -/
def responseJson : FetchOutcome → Except JSErr JSVal
  | .networkError => .error .fetchRejected
  | .nonJson => .error .jsonRejected
  | .json v => .ok v

/-- Observable side effects of a run: a blocking `alert`, the
`navigator.clipboard.read()` attempt, an outbound network request to one
of the two remote endpoints, and the invocations of the two client
functions together with their arguments. -/
inductive Effect where
  | alert (msg : String)
  | clipboardRead
  | recognitionRequest
  | translationRequest
  | recognitionCall (apiKey : String)
  | translationCall (input : JSVal)

/-- A clipboard image payload.  The source manipulates a `Blob` carrying
a MIME type (`blob.type`) and binary data; the data is kept as an opaque
string (its only uses, base64 encoding into the request body and
`URL.createObjectURL`, do not influence any observable the claims are
about). -/
structure Blob where
  type : String
  data : String

/-- Source lines 14-51, `recognizeImageWithGemini(imageBlob, apiKey)`.
`if (!apiKey) return "未填写 Gemini API Key"` short-circuits before the
fetch; otherwise one request is issued and its parsed body is descended
by `parseGemini`.  There is no try/catch, so a rejected fetch, an
unparsable body (`response.json()` rejecting) or a TypeError inside the
descent propagates to the caller; this is the `Except.error` case.
Returns the emitted effects together with the outcome. -/
def recognizeImageWithGemini (apiKey : String) (fetch : FetchOutcome) :
    List Effect × Except JSErr JSVal :=
  if apiKey = "" then ([], .ok (.str noKeySentinel))
  else ([.recognitionRequest], (responseJson fetch).bind parseGemini)

/-- Source lines 83-92, `translateText(text)`.  Always issues exactly
one request (the input text only shapes the URL); the parsed body is
descended by `parseTranslate`.  No try/catch, so a rejected fetch or an
unparsable body propagates to the caller. -/
def translateText (fetch : FetchOutcome) : List Effect × Except JSErr JSVal :=
  ([.translationRequest], (responseJson fetch).bind parseTranslate)

/-- One clipboard item: its ordered list of available MIME types paired
with the payload `item.getType(type)` yields for each. -/
structure ClipboardItem where
  entries : List (String × Blob)

/-- Outcome of `navigator.clipboard.read()`: either the read throws
(access denied or unsupported) or it yields the list of items. -/
inductive ClipboardOutcome where
  | denied
  | items (l : List ClipboardItem)

/-- JS `s.startsWith(p)`: is `p` a prefix of `s`?  Stated on the
character lists so that it computes by structural recursion. -/
def jsStartsWith (s p : String) : Bool :=
  p.toList.isPrefixOf s.toList

/-- Source lines 68-75: the nested loops
`for (const item of clipboardItems) for (const type of item.types)
if (type.startsWith("image/")) return await item.getType(type)`,
restricted to one item. -/
def firstImageInItem : List (String × Blob) → Option Blob
  | [] => none
  | (t, b) :: rest =>
      if jsStartsWith t "image/" then some b else firstImageInItem rest

/-- Source lines 68-75, outer loop over clipboard items. -/
def firstImageInItems : List ClipboardItem → Option Blob
  | [] => none
  | item :: rest =>
      match firstImageInItem item.entries with
      | some b => some b
      | none => firstImageInItems rest

/-- Alert shown by getImageFromClipboard when the clipboard read throws
(source line 77). -/
def clipboardDeniedMsg : String :=
  "获取剪贴板图片失败，请确认已授权浏览器访问剪贴板，并使用新版 Chrome。"

/-- Source lines 64-80, `getImageFromClipboard()`.  The try/catch spans
the clipboard read and the scan; on a throw it alerts the
denied/unsupported message and falls through to `return null`.  Returns
the emitted effects together with the blob, `none` standing for the
JS `null` result. -/
def getImageFromClipboard (clipboard : ClipboardOutcome) :
    List Effect × Option Blob :=
  match clipboard with
  | .denied => ([.clipboardRead, .alert clipboardDeniedMsg], none)
  | .items l => ([.clipboardRead], firstImageInItems l)

/-- The extension local storage, a string-keyed string store.
`getItem` yields `none` for an unset key (JS `null`). -/
def LocalStorage : Type := List (String × String)

/-- Storage key for the credential (source line 5). -/
def GEMINI_KEY_STORAGE : String := "gemini_api_key"

/-- The `localStorage.setItem` primitive. -/
def setItem (st : LocalStorage) (k v : String) : LocalStorage :=
  (k, v) :: st.filter (fun p => p.1 != k)

/-- The `localStorage.getItem` primitive (`null` for an unset key). -/
def getItem (st : LocalStorage) (k : String) : Option String :=
  st.lookup k

/-- Source lines 6-8: `saveGeminiApiKey(key)` stores the key verbatim
under GEMINI_KEY_STORAGE; no trimming happens here. -/
def saveGeminiApiKey (st : LocalStorage) (key : String) : LocalStorage :=
  setItem st GEMINI_KEY_STORAGE key

/-- JS `a || b` on a string-or-null left operand: the right operand is
taken when the left is null or the empty string (both falsy). -/
def jsOrString (a : Option String) (b : String) : String :=
  match a with
  | none => b
  | some s => if s = "" then b else s

/-- Source lines 9-11: `loadGeminiApiKey()` is
`localStorage.getItem(GEMINI_KEY_STORAGE) || ""`. -/
def loadGeminiApiKey (st : LocalStorage) : String :=
  jsOrString (getItem st GEMINI_KEY_STORAGE) ""

/-- The two views of the popup (`tab` state, source line 96). -/
inductive Tab where
  | main
  | settings
  deriving DecidableEq

/-- The React state of the Popup component (source lines 96-104):
the view tab, the three result fields (image reference, recognized
text, translated text), the loading flag, the in-memory credential and
the settings text input.  `recognizedText` and `translatedText` are
kept as JSVal because the remote responses can place non-string values
(including `undefined`) into them; their initial value is the empty
string.  `imageSrc` holds the blob whose object URL the source stores,
`none` standing for JS `null`. -/
structure PopupState where
  tab : Tab
  imageSrc : Option Blob
  recognizedText : JSVal
  translatedText : JSVal
  loading : Bool
  apiKey : String
  apiKeyInput : String

/-- The environment one run of the pipeline observes: the clipboard
read outcome and the outcomes of the (at most) two fetch calls. -/
structure Env where
  clipboard : ClipboardOutcome
  recogFetch : FetchOutcome
  transFetch : FetchOutcome

/-- Result of one invocation of handleScreenshotTranslate: the React
state when the async function settles, the effects emitted in order,
and the escaped exception when the run aborted (the state then is the
state at the throw point, later statements never executing). -/
structure RunResult where
  state : PopupState
  events : List Effect
  escaped : Option JSErr

/-- Source lines 115-118, the first four statements of
handleScreenshotTranslate: `setLoading(true); setRecognizedText("");
setTranslatedText(""); setImageSrc(null)`. -/
def startRun (s : PopupState) : PopupState :=
  { s with loading := true, recognizedText := .str "", translatedText := .str "",
           imageSrc := none }

/-- Alert shown when the credential is empty (source line 122). -/
def noKeyAlertMsg : String := "请先在设置中填写 Gemini API Key！"

/-- Alert shown when no image is found on the clipboard
(source line 131). -/
def noImageAlertMsg : String :=
  "未检测到剪贴板中的图片，请用 Win+Shift+S 截图，然后再点击按钮。"

/-- Source lines 119-148, the rest of handleScreenshotTranslate after
the initial clearing statements: the `!apiKey` early return into the
settings tab, the clipboard capture with its `null` early return, the
image preview, the recognition call, the translation call on the
recognition result, and the final `setLoading(false)`.  An `Except`
error from either client aborts the run at that point with the
exception escaping. -/
def runAfterClear (env : Env) (s : PopupState) : RunResult :=
  if s.apiKey = "" then
    { state := { s with loading := false, tab := .settings },
      events := [.alert noKeyAlertMsg],
      escaped := none }
  else
    let (clipEvents, imageBlob) := getImageFromClipboard env.clipboard
    match imageBlob with
    | none =>
        { state := { s with loading := false },
          events := clipEvents ++ [.alert noImageAlertMsg],
          escaped := none }
    | some blob =>
        let s2 := { s with imageSrc := some blob }
        let (recogEvents, recogResult) :=
          recognizeImageWithGemini s.apiKey env.recogFetch
        match recogResult with
        | .error e =>
            { state := s2,
              events := clipEvents ++ .recognitionCall s.apiKey :: recogEvents,
              escaped := some e }
        | .ok text =>
            let s3 := { s2 with recognizedText := text }
            let (transEvents, transResult) := translateText env.transFetch
            match transResult with
            | .error e =>
                { state := s3,
                  events := clipEvents ++ .recognitionCall s.apiKey :: recogEvents
                    ++ .translationCall text :: transEvents,
                  escaped := some e }
            | .ok translated =>
                { state := { s3 with translatedText := translated, loading := false },
                  events := clipEvents ++ .recognitionCall s.apiKey :: recogEvents
                    ++ .translationCall text :: transEvents,
                  escaped := none }

/-- Source lines 114-148, `handleScreenshotTranslate`: clear the three
result fields, set loading, then run the gated pipeline. -/
def handleScreenshotTranslate (env : Env) (s : PopupState) : RunResult :=
  runAfterClear env (startRun s)

/-- Alert shown by handleSaveKey (source line 154). -/
def keySavedMsg : String := "Gemini API Key 已保存！"

/-- JS `String.prototype.trim()`: strip whitespace from both ends of
the string.  (JS trims the full Unicode whitespace class; for the
claims only the behavior on ordinary whitespace matters, captured by
`Char.isWhitespace`.) -/
def jsTrim (s : String) : String :=
  String.mk
    (((s.toList.dropWhile Char.isWhitespace).reverse.dropWhile
        Char.isWhitespace).reverse)

/-- Source lines 151-156, `handleSaveKey`: persist the trimmed input
(`saveGeminiApiKey(apiKeyInput.trim())`), update the in-memory
credential to the trimmed input, alert a confirmation, switch to the
main tab. -/
def handleSaveKey (st : LocalStorage) (s : PopupState) :
    LocalStorage × PopupState × List Effect :=
  (saveGeminiApiKey st (jsTrim s.apiKeyInput),
   { s with apiKey := jsTrim s.apiKeyInput, tab := .main },
   [.alert keySavedMsg])

/-! ### Sample inputs used in witnesses and counterexamples -/

/-- A sample PNG clipboard payload. -/
def sampleBlob : Blob := ⟨"image/png", "PNGDATA"⟩

/-- A clipboard holding one item whose first type is an image. -/
def sampleClipboard : ClipboardOutcome :=
  .items [⟨[("image/png", sampleBlob)]⟩]

/-- A well-formed Gemini response whose extracted text is "Hello". -/
def sampleGeminiHello : JSVal :=
  .obj [("candidates", .arr [.obj [("content",
    .obj [("parts", .arr [.obj [("text", .str "Hello")]])])]])]

/-- A Gemini response with the full path present but the text field
holding the empty string. -/
def sampleGeminiEmptyText : JSVal :=
  .obj [("candidates", .arr [.obj [("content",
    .obj [("parts", .arr [.obj [("text", .str "")]])])]])]

/-- A Gemini response missing the `candidates` field. -/
def sampleNoCandidates : JSVal := .obj []

/-- A well-formed youdao response whose tgt field is "你好". -/
def sampleTransResp : JSVal :=
  .obj [("translateResult", .arr [.arr [.obj [("tgt", .str "你好")]]])]

/-- A youdao response whose first entry exists (a truthy object) but
has no `tgt` field. -/
def sampleTransNoTgt : JSVal :=
  .obj [("translateResult", .arr [.arr [.obj []]])]

/-- A popup state with a non-empty credential and clean result fields. -/
def sampleState : PopupState :=
  ⟨.main, none, .str "", .str "", false, "ABC123", ""⟩

/-! ### Helper lemmas -/

theorem truthy_not_nullish (v : JSVal) (h : v.truthy = true) :
    nullish v = false := by
  cases v <;> simp_all [JSVal.truthy, nullish]

theorem member_ok (v : JSVal) (k : String) (h : nullish v = false) :
    member v k = .ok (memberD v k) := by
  cases v <;> simp_all [nullish, member, memberD]

theorem index_ok (v : JSVal) (i : Nat) (h : nullish v = false) :
    index v i = .ok (indexD v i) := by
  cases v <;> simp_all [nullish, index, indexD]

theorem member_throw (v : JSVal) (k : String) (h : nullish v = true) :
    member v k = .error .typeError := by
  cases v <;> simp_all [nullish, member]

theorem except_bind_ok (a : JSVal) (f : JSVal → Except JSErr JSVal) :
    (Except.ok (ε := JSErr) a).bind f = f a := rfl

theorem except_bind_err (e : JSErr) (f : JSVal → Except JSErr JSVal) :
    (Except.error (α := JSVal) e).bind f = .error e := rfl

/-- Full characterization of the youdao response descent: the result is
always `Except.ok` (the descent cannot throw, every access being made
on a value already checked truthy), the `tgt` field is returned
verbatim — `undefined` included — whenever the chain down to
`translateResult[0][0]` is truthy, and the sentinel is returned
otherwise. -/
theorem parseTranslate_eq (d : JSVal) :
    parseTranslate d =
      .ok
        (if d.truthy && (memberD d "translateResult").truthy
            && (indexD (memberD d "translateResult") 0).truthy
            && (indexD (indexD (memberD d "translateResult") 0) 0).truthy then
          memberD (indexD (indexD (memberD d "translateResult") 0) 0) "tgt"
        else .str translationFailedSentinel) := by
  unfold parseTranslate
  by_cases h1 : d.truthy = true
  · rw [member_ok d _ (truthy_not_nullish d h1), except_bind_ok]
    by_cases h2 : (memberD d "translateResult").truthy = true
    · rw [index_ok _ 0 (truthy_not_nullish _ h2), except_bind_ok]
      by_cases h3 : (indexD (memberD d "translateResult") 0).truthy = true
      · rw [index_ok _ 0 (truthy_not_nullish _ h3), except_bind_ok]
        by_cases h4 : (indexD (indexD (memberD d "translateResult") 0) 0).truthy = true
        · rw [member_ok _ _ (truthy_not_nullish _ h4)]
          simp [h1, h2, h3, h4]
        · simp [h1, h2, h3, h4]
      · simp [h1, h2, h3]
    · simp [h1, h2]
  · simp [h1]

/-- Full characterization of the Gemini response descent: when the
chain down to `parts` is truthy, the unguarded `parts[0].text` access
throws a TypeError when `parts[0]` is null/undefined, and otherwise
yields `text` when truthy and the sentinel when falsy; when any link
down to `parts` is absent or falsy the sentinel is returned. -/
theorem parseGemini_eq (d : JSVal) :
    parseGemini d =
      (if d.truthy && (memberD d "candidates").truthy
          && (indexD (memberD d "candidates") 0).truthy
          && (memberD (indexD (memberD d "candidates") 0) "content").truthy
          && (memberD (memberD (indexD (memberD d "candidates") 0) "content")
              "parts").truthy then
        if nullish (indexD (memberD (memberD (indexD (memberD d "candidates") 0)
            "content") "parts") 0) then .error .typeError
        else if (memberD (indexD (memberD (memberD (indexD (memberD d "candidates") 0)
            "content") "parts") 0) "text").truthy then
          .ok (memberD (indexD (memberD (memberD (indexD (memberD d "candidates") 0)
            "content") "parts") 0) "text")
        else .ok (.str notRecognizedSentinel)
      else .ok (.str notRecognizedSentinel)) := by
  unfold parseGemini
  by_cases h1 : d.truthy = true
  · rw [member_ok d _ (truthy_not_nullish d h1), except_bind_ok]
    by_cases h2 : (memberD d "candidates").truthy = true
    · rw [index_ok _ 0 (truthy_not_nullish _ h2), except_bind_ok]
      by_cases h3 : (indexD (memberD d "candidates") 0).truthy = true
      · rw [member_ok _ _ (truthy_not_nullish _ h3), except_bind_ok]
        by_cases h4 : (memberD (indexD (memberD d "candidates") 0) "content").truthy = true
        · rw [member_ok _ _ (truthy_not_nullish _ h4), except_bind_ok]
          by_cases h5 : (memberD (memberD (indexD (memberD d "candidates") 0)
              "content") "parts").truthy = true
          · rw [index_ok _ 0 (truthy_not_nullish _ h5), except_bind_ok]
            by_cases h6 : nullish (indexD (memberD (memberD (indexD (memberD d
                "candidates") 0) "content") "parts") 0) = true
            · rw [member_throw _ _ h6, except_bind_err]
              simp [h1, h2, h3, h4, h5, h6]
            · rw [member_ok _ _ (by simpa using h6), except_bind_ok]
              by_cases h7 : (memberD (indexD (memberD (memberD (indexD (memberD d
                  "candidates") 0) "content") "parts") 0) "text").truthy = true
              · simp [h1, h2, h3, h4, h5, h6, h7]
              · simp [h1, h2, h3, h4, h5, h6, h7]
          · simp [h1, h2, h3, h4, h5]
        · simp [h1, h2, h3, h4]
      · simp [h1, h2, h3]
    · simp [h1, h2]
  · simp [h1]

/-! ### Claim theorems -/

/-- C2 counterexample: on the response shape where
`translateResult[0][0]` exists (a truthy object) but has no `tgt`
field, translateText returns JS `undefined` — the value of the missing
field — and not the sentinel "翻译失败", because the source guard never
checks `.tgt`. -/
theorem C2_counterexample :
    translateText (.json sampleTransNoTgt)
        = ([.translationRequest], .ok .undef) ∧
      JSVal.undef ≠ JSVal.str translationFailedSentinel := by
  exact ⟨rfl, by simp⟩

/-- C2 amended: translateText on a JSON response returns
`translateResult[0][0].tgt` verbatim — including `undefined` when the
entry has no `tgt` field — whenever the chain down to
`translateResult[0][0]` is truthy, and returns the sentinel "翻译失败"
exactly when some link of that chain is absent or falsy; the descent
itself never throws. -/
theorem C2_theorem (d : JSVal) :
    translateText (.json d) =
      ([.translationRequest],
        .ok
          (if d.truthy && (memberD d "translateResult").truthy
              && (indexD (memberD d "translateResult") 0).truthy
              && (indexD (indexD (memberD d "translateResult") 0) 0).truthy then
            memberD (indexD (indexD (memberD d "translateResult") 0) 0) "tgt"
          else .str translationFailedSentinel)) := by
  simp only [translateText, responseJson, except_bind_ok, parseTranslate_eq]

/-- C6 counterexample: on a response in which every link of the path
`candidates[0].content.parts[0].text` is present but the text field
holds the empty string, recognizeImageWithGemini returns the sentinel
"未能识别图片文字", not the string at the path (the guard tests the
truthiness of the text, not its presence). -/
theorem C6_counterexample :
    recognizeImageWithGemini "ABC123" (.json sampleGeminiEmptyText)
        = ([.recognitionRequest], .ok (.str notRecognizedSentinel)) ∧
      memberD (indexD (memberD (memberD (indexD
          (memberD sampleGeminiEmptyText "candidates") 0) "content") "parts") 0)
          "text" = .str "" ∧
      notRecognizedSentinel ≠ "" := by
  exact ⟨rfl, rfl, by decide⟩

/-- C6 amended: for a non-empty key and any JSON response,
recognizeImageWithGemini returns the value at the path
`candidates[0].content.parts[0].text` when every link down to `parts`
is truthy, `parts[0]` is not null/undefined and the text value is
truthy; it returns the sentinel "未能识别图片文字" when a link down to
`parts` is absent or falsy, or when the text is present but falsy
(e.g. the empty string); and when `parts` is truthy but `parts[0]` is
null or undefined the unguarded `parts[0].text` access throws a
TypeError to the caller instead of degrading to the sentinel. -/
theorem C6_theorem (k : String) (d : JSVal) (hk : k ≠ "") :
    recognizeImageWithGemini k (.json d) =
      ([.recognitionRequest],
        if d.truthy && (memberD d "candidates").truthy
            && (indexD (memberD d "candidates") 0).truthy
            && (memberD (indexD (memberD d "candidates") 0) "content").truthy
            && (memberD (memberD (indexD (memberD d "candidates") 0) "content")
                "parts").truthy then
          if nullish (indexD (memberD (memberD (indexD (memberD d "candidates") 0)
              "content") "parts") 0) then .error .typeError
          else if (memberD (indexD (memberD (memberD (indexD (memberD d "candidates")
              0) "content") "parts") 0) "text").truthy then
            .ok (memberD (indexD (memberD (memberD (indexD (memberD d "candidates")
              0) "content") "parts") 0) "text")
          else .ok (.str notRecognizedSentinel)
        else .ok (.str notRecognizedSentinel)) := by
  simp only [recognizeImageWithGemini, if_neg hk, responseJson, except_bind_ok,
    parseGemini_eq]

/-- C6 witness: the amended theorem applied at a concrete non-empty key
and a concrete well-formed response extracting "Hello". -/
theorem C6_witness :
    ("ABC123" : String) ≠ "" ∧
      recognizeImageWithGemini "ABC123" (.json sampleGeminiHello)
        = ([.recognitionRequest], .ok (.str "Hello")) :=
  ⟨by decide, (C6_theorem ("ABC123") sampleGeminiHello (by decide)).trans rfl⟩

/-- C9: when the recognition response carries the full path
`candidates[0].content.parts[0].text` but the text field holds the
empty string, recognizeImageWithGemini returns the "not recognized"
sentinel, making the result indistinguishable from that for a malformed
response such as an empty object. -/
theorem C9_theorem (k : String) (d : JSVal) (hk : k ≠ "")
    (h1 : d.truthy = true)
    (h2 : (memberD d "candidates").truthy = true)
    (h3 : (indexD (memberD d "candidates") 0).truthy = true)
    (h4 : (memberD (indexD (memberD d "candidates") 0) "content").truthy = true)
    (h5 : (memberD (memberD (indexD (memberD d "candidates") 0) "content")
        "parts").truthy = true)
    (h6 : memberD (indexD (memberD (memberD (indexD (memberD d "candidates") 0)
        "content") "parts") 0) "text" = .str "") :
    recognizeImageWithGemini k (.json d)
        = ([.recognitionRequest], .ok (.str notRecognizedSentinel)) ∧
      (recognizeImageWithGemini k (.json d)).2
        = (recognizeImageWithGemini k (.json (.obj []))).2 := by
  have hgen : ∀ w : JSVal, nullish w = true → memberD w "text" = .undef := by
    intro w hw
    simp [memberD, member_throw _ _ hw]
  have hn : nullish (indexD (memberD (memberD (indexD (memberD d "candidates") 0)
      "content") "parts") 0) = false := by
    by_cases hp : nullish (indexD (memberD (memberD (indexD (memberD d
        "candidates") 0) "content") "parts") 0) = true
    · exfalso
      rw [hgen _ hp] at h6
      exact JSVal.noConfusion h6
    · simpa using hp
  have hmain : recognizeImageWithGemini k (.json d)
      = ([.recognitionRequest], .ok (.str notRecognizedSentinel)) := by
    rw [recognizeImageWithGemini, if_neg hk]
    simp only [responseJson, except_bind_ok, parseGemini_eq]
    simp [h1, h2, h3, h4, h5, h6, hn, JSVal.truthy]
  refine ⟨hmain, ?_⟩
  rw [hmain, recognizeImageWithGemini, if_neg hk]
  rfl

/-- C9 witness: the theorem applied at a concrete response whose path
is fully present with an empty text field. -/
theorem C9_witness :
    ("k9" : String) ≠ "" ∧
      recognizeImageWithGemini "k9" (.json sampleGeminiEmptyText)
        = ([.recognitionRequest], .ok (.str notRecognizedSentinel)) :=
  ⟨by decide,
    (C9_theorem ("k9") sampleGeminiEmptyText (by decide) rfl rfl rfl rfl rfl rfl).1⟩

/-- C3 counterexample: saveGeminiApiKey itself does not trim — storing
the string " a " and loading yields " a " back, not the trimmed "a";
the trimming in the source happens in handleSaveKey before
saveGeminiApiKey is called. -/
theorem C3_counterexample :
    loadGeminiApiKey (saveGeminiApiKey [] " a ") = " a " ∧
      jsTrim " a " = "a" ∧ (" a " : String) ≠ "a" := by
  exact ⟨rfl, by decide, by decide⟩

/-- C3 amended: saveGeminiApiKey stores its argument verbatim and
loadGeminiApiKey returns exactly the stored string, so
`save(x); load()` yields x, not trim(x); the round-trip through the
settings save action handleSaveKey — which trims the input before
calling saveGeminiApiKey and also places the trimmed value into the
in-memory credential — yields trim(x) for the input x. -/
theorem C3_theorem (st : LocalStorage) (x : String) (s : PopupState) :
    loadGeminiApiKey (saveGeminiApiKey st x) = x ∧
      (handleSaveKey st s).1 = saveGeminiApiKey st (jsTrim s.apiKeyInput) ∧
      loadGeminiApiKey (handleSaveKey st s).1 = jsTrim s.apiKeyInput ∧
      (handleSaveKey st s).2.1.apiKey = jsTrim s.apiKeyInput := by
  have hload : ∀ (st2 : LocalStorage) (y : String),
      loadGeminiApiKey (saveGeminiApiKey st2 y) = y := by
    intro st2 y
    by_cases hy : y = "" <;>
      simp [loadGeminiApiKey, saveGeminiApiKey, setItem, getItem, jsOrString,
        List.lookup, hy]
  refine ⟨hload st x, rfl, ?_, rfl⟩
  simp only [handleSaveKey]
  exact hload st (jsTrim s.apiKeyInput)

/-- C8: a run of handleScreenshotTranslate is insensitive to whatever
image reference, recognized text, translated text and loading flag were
left by a previous run — they are all cleared together before anything
else happens — and the state in force at the credential check (the
first gate after the clearing statements) has the image reference null,
both text fields empty, the loading flag set, and the credential and
remaining fields untouched. -/
theorem C8_theorem (env : Env) (s : PopupState) (img : Option Blob)
    (rt tt : JSVal) (ld : Bool) :
    handleScreenshotTranslate env
        { s with imageSrc := img, recognizedText := rt,
                 translatedText := tt, loading := ld }
      = handleScreenshotTranslate env s ∧
    (startRun s).imageSrc = none ∧
    (startRun s).recognizedText = .str "" ∧
    (startRun s).translatedText = .str "" ∧
    (startRun s).loading = true ∧
    (startRun s).apiKey = s.apiKey ∧
    (startRun s).apiKeyInput = s.apiKeyInput ∧
    (startRun s).tab = s.tab ∧
    handleScreenshotTranslate env s = runAfterClear env (startRun s) := by
  exact ⟨rfl, rfl, rfl, rfl, rfl, rfl, rfl, rfl, rfl⟩

/-- C4: a run triggered with an empty in-memory credential performs no
clipboard read and no network request, surfaces only the blocking
missing-credential alert, switches the view to Settings, terminates
normally (no escaped exception, loading back to false), and leaves the
recognized-text and translated-text fields empty and the image
reference null. -/
theorem C4_theorem (env : Env) (s : PopupState) (h : s.apiKey = "") :
    handleScreenshotTranslate env s =
      { state := { startRun s with loading := false, tab := .settings },
        events := [.alert noKeyAlertMsg], escaped := none } ∧
    (handleScreenshotTranslate env s).state.recognizedText = .str "" ∧
    (handleScreenshotTranslate env s).state.translatedText = .str "" ∧
    (handleScreenshotTranslate env s).state.imageSrc = none ∧
    (handleScreenshotTranslate env s).state.tab = .settings ∧
    (handleScreenshotTranslate env s).state.loading = false ∧
    (handleScreenshotTranslate env s).escaped = none ∧
    Effect.clipboardRead ∉ (handleScreenshotTranslate env s).events ∧
    Effect.recognitionRequest ∉ (handleScreenshotTranslate env s).events ∧
    Effect.translationRequest ∉ (handleScreenshotTranslate env s).events := by
  have e1 : handleScreenshotTranslate env s =
      { state := { startRun s with loading := false, tab := .settings },
        events := [.alert noKeyAlertMsg], escaped := none } := by
    simp [handleScreenshotTranslate, runAfterClear, startRun, h]
  refine ⟨e1, ?_, ?_, ?_, ?_, ?_, ?_, ?_, ?_, ?_⟩ <;> rw [e1] <;> simp [startRun]

/-- C4 witness: the theorem applied to a state with an empty credential
and an arbitrary environment. -/
theorem C4_witness :
    (PopupState.mk .main none (.str "") (.str "") false "" "").apiKey = "" ∧
      (handleScreenshotTranslate
          ⟨.denied, .networkError, .networkError⟩
          (PopupState.mk .main none (.str "") (.str "") false "" "")).state.tab
        = .settings ∧
      Effect.clipboardRead ∉
        (handleScreenshotTranslate
          ⟨.denied, .networkError, .networkError⟩
          (PopupState.mk .main none (.str "") (.str "") false "" "")).events :=
  ⟨rfl,
    (C4_theorem ⟨.denied, .networkError, .networkError⟩
      (PopupState.mk .main none (.str "") (.str "") false "" "") rfl).2.2.2.2.1,
    (C4_theorem ⟨.denied, .networkError, .networkError⟩
      (PopupState.mk .main none (.str "") (.str "") false "" "") rfl).2.2.2.2.2.2.2.1⟩

/-- C7: when the clipboard read throws (access denied or unsupported),
the ClipboardAccessDenied alert is emitted inside getImageFromClipboard
itself, the capture returns null, in a run with a non-empty credential
both that alert and the separate NoClipboardImage alert surface, and
the two message strings are distinct — the two failure reasons are not
collapsed into one message. -/
theorem C7_theorem (env : Env) (s : PopupState)
    (hc : env.clipboard = .denied) (hk : s.apiKey ≠ "") :
    getImageFromClipboard env.clipboard
        = ([.clipboardRead, .alert clipboardDeniedMsg], none) ∧
    Effect.alert clipboardDeniedMsg ∈ (handleScreenshotTranslate env s).events ∧
    Effect.alert noImageAlertMsg ∈ (handleScreenshotTranslate env s).events ∧
    clipboardDeniedMsg ≠ noImageAlertMsg := by
  obtain ⟨clip, rf, tf⟩ := env
  cases hc
  refine ⟨rfl, ?_, ?_, by decide⟩ <;>
    simp [handleScreenshotTranslate, runAfterClear, startRun, hk,
      getImageFromClipboard]

/-- C7 witness: the theorem applied to a denied clipboard and a
non-empty credential. -/
theorem C7_witness :
    (Env.mk .denied .networkError .networkError).clipboard = .denied ∧
      sampleState.apiKey ≠ "" ∧
      clipboardDeniedMsg ≠ noImageAlertMsg :=
  ⟨rfl, by decide,
    (C7_theorem ⟨.denied, .networkError, .networkError⟩ sampleState rfl
      (by decide)).2.2.2⟩

/-- C5: in any run with a non-empty credential that captures an image,
once recognizeImageWithGemini returns a string t, translateText is
invoked with exactly t — with no special-casing of the "not recognized"
sentinel — the recognized-text field stores t, and (the translation
response being JSON) the run ends with loading back to false and no
escaped exception. -/
theorem C5_theorem (env : Env) (s : PopupState) (t d2 : JSVal)
    (hk : s.apiKey ≠ "")
    (himg : (getImageFromClipboard env.clipboard).2.isSome = true)
    (hrec : (recognizeImageWithGemini s.apiKey env.recogFetch).2 = .ok t)
    (htr : env.transFetch = .json d2) :
    Effect.recognitionCall s.apiKey ∈ (handleScreenshotTranslate env s).events ∧
    Effect.translationCall t ∈ (handleScreenshotTranslate env s).events ∧
    (handleScreenshotTranslate env s).state.recognizedText = t ∧
    (handleScreenshotTranslate env s).state.loading = false ∧
    (handleScreenshotTranslate env s).escaped = none := by
  obtain ⟨clip, rf, tf⟩ := env
  dsimp only at himg hrec htr ⊢
  subst htr
  rcases hgc : getImageFromClipboard clip with ⟨ev, ib⟩
  rw [hgc] at himg
  cases ib with
  | none => simp at himg
  | some blob =>
      rcases hrc : recognizeImageWithGemini s.apiKey rf with ⟨rev, rres⟩
      rw [hrc] at hrec
      dsimp only at hrec
      subst hrec
      have hv := parseTranslate_eq d2
      refine ⟨?_, ?_, ?_, ?_, ?_⟩ <;>
        simp [handleScreenshotTranslate, runAfterClear, startRun, hk, hgc, hrc,
          translateText, responseJson, except_bind_ok, hv]

/-- C5 witness: the theorem applied to a run whose recognition response
lacks `candidates`, so recognition yields the "not recognized"
sentinel, translation is still attempted with that sentinel as input,
and the run ends with loading false. -/
theorem C5_witness :
    sampleState.apiKey ≠ "" ∧
      Effect.translationCall (.str notRecognizedSentinel) ∈
        (handleScreenshotTranslate
          ⟨sampleClipboard, .json sampleNoCandidates, .json sampleTransResp⟩
          sampleState).events ∧
      (handleScreenshotTranslate
          ⟨sampleClipboard, .json sampleNoCandidates, .json sampleTransResp⟩
          sampleState).state.recognizedText = .str notRecognizedSentinel ∧
      (handleScreenshotTranslate
          ⟨sampleClipboard, .json sampleNoCandidates, .json sampleTransResp⟩
          sampleState).state.loading = false :=
  ⟨by decide,
    (C5_theorem ⟨sampleClipboard, .json sampleNoCandidates, .json sampleTransResp⟩
      sampleState (.str notRecognizedSentinel) sampleTransResp (by decide) rfl rfl
      rfl).2.1,
    (C5_theorem ⟨sampleClipboard, .json sampleNoCandidates, .json sampleTransResp⟩
      sampleState (.str notRecognizedSentinel) sampleTransResp (by decide) rfl rfl
      rfl).2.2.1,
    (C5_theorem ⟨sampleClipboard, .json sampleNoCandidates, .json sampleTransResp⟩
      sampleState (.str notRecognizedSentinel) sampleTransResp (by decide) rfl rfl
      rfl).2.2.2.1⟩

/-- C1 counterexample: with a valid credential and an image on the
clipboard, a transport failure of the recognition fetch is NOT mapped
to the stage sentinel: the exception escapes recognizeImageWithGemini,
handleScreenshotTranslate aborts mid-run with the exception escaping,
and loading stays true — the final loading=false step is never
reached. -/
theorem C1_counterexample :
    (recognizeImageWithGemini "ABC123" .networkError).2 = .error .fetchRejected ∧
    (handleScreenshotTranslate
        ⟨sampleClipboard, .networkError, .json sampleTransResp⟩
        sampleState).escaped = some .fetchRejected ∧
    (handleScreenshotTranslate
        ⟨sampleClipboard, .networkError, .json sampleTransResp⟩
        sampleState).state.loading = true ∧
    (Except.error (α := JSVal) JSErr.fetchRejected)
      ≠ .ok (.str notRecognizedSentinel) := by
  exact ⟨rfl, rfl, rfl, by simp⟩

/-- C1 amended: the "degrade to sentinel, never crash the run" contract
holds only for shape mismatches of JSON-parsed responses: whenever both
remote calls yield JSON bodies and the recognition descent itself does
not throw (i.e. it produces some value t), no exception escapes either
client, and handleScreenshotTranslate reaches its final loading=false
step; transport failures and non-JSON bodies, by contrast, escape as
exceptions (see the counterexample). -/
theorem C1_theorem (env : Env) (s : PopupState) (d1 d2 t : JSVal)
    (h1 : env.recogFetch = .json d1)
    (h2 : env.transFetch = .json d2)
    (h3 : parseGemini d1 = .ok t) :
    (handleScreenshotTranslate env s).escaped = none ∧
    (handleScreenshotTranslate env s).state.loading = false := by
  obtain ⟨clip, rf, tf⟩ := env
  dsimp only at h1 h2 ⊢
  subst h1
  subst h2
  by_cases hk : s.apiKey = ""
  · constructor <;> simp [handleScreenshotTranslate, runAfterClear, startRun, hk]
  · rcases hgc : getImageFromClipboard clip with ⟨ev, ib⟩
    cases ib with
    | none =>
        constructor <;>
          simp [handleScreenshotTranslate, runAfterClear, startRun, hk, hgc]
    | some blob =>
        have hv := parseTranslate_eq d2
        constructor <;>
          simp [handleScreenshotTranslate, runAfterClear, startRun, hk, hgc,
            recognizeImageWithGemini, responseJson, except_bind_ok, h3,
            translateText, hv]

/-- C1 witness: the amended theorem applied to a run in which both
endpoints return well-formed JSON. -/
theorem C1_witness :
    parseGemini sampleGeminiHello = .ok (.str "Hello") ∧
      (handleScreenshotTranslate
          ⟨sampleClipboard, .json sampleGeminiHello, .json sampleTransResp⟩
          sampleState).escaped = none ∧
      (handleScreenshotTranslate
          ⟨sampleClipboard, .json sampleGeminiHello, .json sampleTransResp⟩
          sampleState).state.loading = false :=
  ⟨rfl,
    (C1_theorem ⟨sampleClipboard, .json sampleGeminiHello, .json sampleTransResp⟩
      sampleState sampleGeminiHello sampleTransResp (.str "Hello") rfl rfl rfl).1,
    (C1_theorem ⟨sampleClipboard, .json sampleGeminiHello, .json sampleTransResp⟩
      sampleState sampleGeminiHello sampleTransResp (.str "Hello") rfl rfl rfl).2⟩

/-- C10: recognizeImageWithGemini is only ever invoked by the pipeline
with the non-empty in-memory credential (the controller returns before
the clipboard and recognition steps when the credential is empty), for
a non-empty key the internal empty-credential branch is not taken (a
network request is always issued), and the "no credential" sentinel can
be stored in the recognized-text field only if the recognition endpoint
itself returned JSON whose extracted text is literally that string. -/
theorem C10_theorem (env : Env) (s : PopupState) (k : String)
    (h : Effect.recognitionCall k ∈ (handleScreenshotTranslate env s).events) :
    k = s.apiKey ∧ s.apiKey ≠ "" ∧
    (∀ k2 f, k2 ≠ "" → (recognizeImageWithGemini k2 f).1 = [.recognitionRequest]) ∧
    ((handleScreenshotTranslate env s).state.recognizedText = .str noKeySentinel →
      ∃ d, env.recogFetch = .json d ∧ parseGemini d = .ok (.str noKeySentinel)) := by
  have hbranch : ∀ (k2 : String) (f : FetchOutcome), k2 ≠ "" →
      (recognizeImageWithGemini k2 f).1 = [.recognitionRequest] := by
    intro k2 f hk2
    simp [recognizeImageWithGemini, hk2]
  obtain ⟨clip, rf, tf⟩ := env
  dsimp only at h ⊢
  by_cases hk : s.apiKey = ""
  · exfalso
    simp [handleScreenshotTranslate, runAfterClear, startRun, hk] at h
  · cases clip with
    | denied =>
        exfalso
        simp [handleScreenshotTranslate, runAfterClear, startRun, hk,
          getImageFromClipboard] at h
    | items l =>
        cases hfi : firstImageInItems l with
        | none =>
            exfalso
            simp [handleScreenshotTranslate, runAfterClear, startRun, hk,
              getImageFromClipboard, hfi] at h
        | some blob =>
            cases hres : (responseJson rf).bind parseGemini with
            | error e =>
                refine ⟨?_, hk, hbranch, ?_⟩
                · simp [handleScreenshotTranslate, runAfterClear, startRun, hk,
                    getImageFromClipboard, hfi, recognizeImageWithGemini,
                    hres] at h
                  exact h
                · intro him
                  exfalso
                  simp [handleScreenshotTranslate, runAfterClear, startRun, hk,
                    getImageFromClipboard, hfi, recognizeImageWithGemini,
                    hres] at him
                  exact absurd him (by decide)
            | ok t =>
                cases htt : (responseJson tf).bind parseTranslate with
                | error e2 =>
                    refine ⟨?_, hk, hbranch, ?_⟩
                    · simp [handleScreenshotTranslate, runAfterClear, startRun,
                        hk, getImageFromClipboard, hfi, recognizeImageWithGemini,
                        hres, translateText, htt] at h
                      exact h
                    · intro him
                      simp [handleScreenshotTranslate, runAfterClear, startRun,
                        hk, getImageFromClipboard, hfi, recognizeImageWithGemini,
                        hres, translateText, htt] at him
                      subst him
                      cases rf with
                      | networkError => exact absurd hres (by simp [responseJson,
                          except_bind_err])
                      | nonJson => exact absurd hres (by simp [responseJson,
                          except_bind_err])
                      | json d =>
                          refine ⟨d, rfl, ?_⟩
                          rw [← hres]
                          simp [responseJson, except_bind_ok]
                | ok t2 =>
                    refine ⟨?_, hk, hbranch, ?_⟩
                    · simp [handleScreenshotTranslate, runAfterClear, startRun,
                        hk, getImageFromClipboard, hfi, recognizeImageWithGemini,
                        hres, translateText, htt] at h
                      exact h
                    · intro him
                      simp [handleScreenshotTranslate, runAfterClear, startRun,
                        hk, getImageFromClipboard, hfi, recognizeImageWithGemini,
                        hres, translateText, htt] at him
                      subst him
                      cases rf with
                      | networkError => exact absurd hres (by simp [responseJson,
                          except_bind_err])
                      | nonJson => exact absurd hres (by simp [responseJson,
                          except_bind_err])
                      | json d =>
                          refine ⟨d, rfl, ?_⟩
                          rw [← hres]
                          simp [responseJson, except_bind_ok]

/-- C10 witness: a complete successful run; the recognition invocation
recorded in its events carries the non-empty credential. -/
theorem C10_witness :
    Effect.recognitionCall "ABC123" ∈
        (handleScreenshotTranslate
          ⟨sampleClipboard, .json sampleGeminiHello, .json sampleTransResp⟩
          sampleState).events ∧
      sampleState.apiKey ≠ "" :=
  have hmem : Effect.recognitionCall "ABC123" ∈
      (handleScreenshotTranslate
        ⟨sampleClipboard, .json sampleGeminiHello, .json sampleTransResp⟩
        sampleState).events := by
    have he : (handleScreenshotTranslate
        ⟨sampleClipboard, .json sampleGeminiHello, .json sampleTransResp⟩
        sampleState).events
        = [.clipboardRead, .recognitionCall "ABC123", .recognitionRequest,
            .translationCall (.str "Hello"), .translationRequest] := rfl
    rw [he]
    simp
  ⟨hmem,
    (C10_theorem ⟨sampleClipboard, .json sampleGeminiHello, .json sampleTransResp⟩
      sampleState "ABC123" hmem).2.1⟩

end Popup
